import Mathlib

/-!
Verification of the YOLO OBB ROS node (`yolo_detect/scripts/yolo_2d_obb.py`)
against its natural-language specification.

The node's per-frame callback (`image_callback`) is shallowly embedded below.
Timestamps, rates, confidences and box coordinates are modelled as rationals
(the Python code computes with floats; the claims under study are about the
control flow and the exact update formulas, which rationals capture exactly).
External collaborators (cv2 decode/encode/drawing, the ultralytics detector,
ROS publishers) become oracle functions bundled in a `CallbackEnv`; the
callback is a pure function from node state, environment and message to a
`CycleResult` recording the new state and what was published and logged.
-/

/-- ROS message header: correlation id (`seq`) and timestamp. -/
structure Header where
  seq : Nat
  stamp : ℚ
  deriving DecidableEq, Repr

/-- `sensor_msgs/CompressedImage`: header, format string, byte payload. -/
structure CompressedImageMsg where
  header : Header
  format : String
  data : List Nat
  deriving DecidableEq, Repr

/-- A decoded raster image (its pixel content is opaque to the claims). -/
structure Raster where
  pixels : List Nat
  deriving DecidableEq, Repr

/-- One raw oriented detection as returned by the detector: class index
(`obb.cls`, a float), confidence (`obb.conf`) and the rotated-box quintuple
`obb.xywhr[0] = (center_x, center_y, width, height, angle_in_radians)`
in the detector's native order. -/
structure OBBRaw where
  cls : ℚ
  conf : ℚ
  xywhr : ℚ × ℚ × ℚ × ℚ × ℚ
  deriving DecidableEq, Repr

/-- `yolo_detect/OBBDetection` message. -/
structure OBBDetection where
  class_id : ℤ
  class_name : String
  score : ℚ
  x_center : ℚ
  y_center : ℚ
  width : ℚ
  height : ℚ
  angle : ℚ
  deriving DecidableEq, Repr

/-- `yolo_detect/OBBDetectionArray` message. -/
structure OBBDetectionArray where
  header : Header
  detections : List OBBDetection
  deriving DecidableEq, Repr

/-- Mutable node state (`self.*` in `YoloOBBNode`): configured confidence
threshold, the two EMA rate trackers with their previous timestamps, and the
model's class-name table (`self.model.names`, fixed after startup). -/
structure NodeState where
  confidence_threshold : ℚ
  proc_prev_time : ℚ
  proc_fps : ℚ
  sub_prev_time : ℚ
  sub_fps : ℚ
  names : List String
  deriving DecidableEq, Repr

/-- `YoloOBBNode.__init__` lines 29-35: the threshold parameter is read with
default `0.5` (`rospy.get_param` with a supplied default), and the four
FPS-tracking variables are initialised to zero. -/
def initState (confidenceParam : Option ℚ) (names : List String) : NodeState :=
  { confidence_threshold := confidenceParam.getD (1/2)
    proc_prev_time := 0
    proc_fps := 0
    sub_prev_time := 0
    sub_fps := 0
    names := names }

/-- The EMA update pattern both trackers use inline (lines 68-72 and 91-95):
given the stored previous timestamp `prev`, current rate `fps` and current
time `now`, return the new `(fps, prev)` pair.  The rate changes only when
`prev > 0` and the elapsed time is strictly positive, in which case
`fps = fps * 0.9 + (1 / elapsed) * 0.1`; the previous timestamp is always
overwritten with `now`. -/
def fpsUpdate (prev fps now : ℚ) : ℚ × ℚ :=
  if prev > 0 then
    if now - prev > 0 then (fps * (9/10) + 1 / (now - prev) * (1/10), now)
    else (fps, now)
  else (fps, now)

/-- `int(x)` in Python truncates toward zero. -/
def pyInt (q : ℚ) : ℤ :=
  if 0 ≤ q then ⌊q⌋ else ⌈q⌉

/-- Lines 123-136: build one `OBBDetection` from one raw detector row.
`self.model.names[class_id]` is a direct table lookup with no bounds check
and no fallback: an out-of-range id raises (`none` here), otherwise the
fields are copied verbatim. -/
def mkOBBDetection (names : List String) (obb : OBBRaw) : Option OBBDetection :=
  if h : 0 ≤ pyInt obb.cls ∧ (pyInt obb.cls).toNat < names.length then
    some { class_id := pyInt obb.cls
           class_name := names.get ⟨(pyInt obb.cls).toNat, h.2⟩
           score := obb.conf
           x_center := obb.xywhr.1
           y_center := obb.xywhr.2.1
           width := obb.xywhr.2.2.1
           height := obb.xywhr.2.2.2.1
           angle := obb.xywhr.2.2.2.2 }
  else none

/-- Lines 122-138: the `for obb in result.obb` loop.  Nothing is published
until the loop completes, so a name-lookup failure anywhere (`none`) means
the whole batch construction fails (the exception propagates out of the
callback before `detection_pub.publish`). -/
def buildDetections (names : List String) : List OBBRaw → Option (List OBBDetection)
  | [] => some []
  | o :: rest =>
    match mkOBBDetection names o, buildDetections names rest with
    | some d, some ds => some (d :: ds)
    | _, _ => none

/-- What `self.model(cv_image, conf=...)` followed by `results[0]` yields:
the oriented detections (`result.obb`, which is `None` for a non-OBB model)
and the plotted visualization frame (`result.plot()`). -/
structure DetectResult where
  obb : Option (List OBBRaw)
  plotted : Raster
  deriving DecidableEq, Repr

/-- Outcome of the annotated-image try-block (lines 103-114): either
`cv2.imencode` succeeded and the publish went through (`ok buffer`), or
`imencode` returned a false success flag (`retFalse`, line 108), or an
exception was raised somewhere inside the try block (`exn`), in which case
the image is not published. -/
inductive EncodeOutcome where
  | ok (buffer : List Nat)
  | retFalse
  | exn (e : String)
  deriving DecidableEq, Repr

/-- Oracles for the external calls one invocation of `image_callback` makes:
the two `time.time()` readings that feed the trackers, the decode step
(lines 76-77; `Except.error` models the caught exception branch), the
detector (a function of the raster and the confidence threshold actually
passed), the FPS text overlay (lines 97-100, pixel-level effect opaque),
and the encode-and-publish try block.  `proc_start` mirrors the
`proc_start_time` local of line 74, which the source never reads. -/
structure CallbackEnv where
  sub_now : ℚ
  proc_start : ℚ
  decode : Except String Raster
  detect : Raster → ℚ → DetectResult
  overlay : Raster → ℚ → ℚ → Raster
  encode : Raster → EncodeOutcome
  proc_end : ℚ

/-- Observable result of one `image_callback` invocation: the new node state,
the message published on each outbound topic (if any), the error log, and
whether an uncaught exception escaped the callback. -/
structure CycleResult where
  st : NodeState
  imagePub : Option CompressedImageMsg
  detPub : Option OBBDetectionArray
  log : List String
  crashed : Bool
  deriving DecidableEq, Repr

/-- Lines 116-140: build the `OBBDetectionArray` (header copied from the
input message, loop over `result.obb` unless it is `None`) and publish it.
A name-lookup failure crashes the callback after the image was already
published. -/
def finishDetections (st : NodeState) (msg : CompressedImageMsg)
    (imgPub : Option CompressedImageMsg) (log : List String) :
    Option (List OBBRaw) → CycleResult
  | none =>
    { st := st, imagePub := imgPub
      detPub := some { header := msg.header, detections := [] }
      log := log, crashed := false }
  | some obbs =>
    match buildDetections st.names obbs with
    | none =>
      { st := st, imagePub := imgPub, detPub := none, log := log, crashed := true }
    | some dets =>
      { st := st, imagePub := imgPub
        detPub := some { header := msg.header, detections := dets }
        log := log, crashed := false }

/-- Lines 102-140, dispatch on the outcome of the annotated-image try
block: a false `imencode` flag (line 108) returns from the whole callback,
an exception is caught and logged (line 114) and only skips the image
publication, a success publishes the image with the input header; except in
the first case the detection batch is then built and published. -/
def publishSteps (st2 : NodeState) (msg : CompressedImageMsg)
    (obb : Option (List OBBRaw)) : EncodeOutcome → CycleResult
  | EncodeOutcome.retFalse =>
    { st := st2, imagePub := none, detPub := none
      log := ["Failed to encode annotated image."], crashed := false }
  | EncodeOutcome.exn e =>
    finishDetections st2 msg none ["Error publishing annotated image: " ++ e] obb
  | EncodeOutcome.ok buffer =>
    finishDetections st2 msg
      (some { header := msg.header, format := "jpeg", data := buffer }) [] obb

/-- Lines 82-140, the part of the callback after a successful decode:
inference at the configured threshold (line 84), `result.plot()` (line 87),
the processing-rate EMA update (lines 90-95), the FPS overlay (lines
97-100), then the publication steps driven by the encode outcome. -/
def afterDecode (st1 : NodeState) (env : CallbackEnv) (msg : CompressedImageMsg)
    (cv_image : Raster) : CycleResult :=
  let result := env.detect cv_image st1.confidence_threshold
  let procPair := fpsUpdate st1.proc_prev_time st1.proc_fps env.proc_end
  let st2 : NodeState := { st1 with proc_fps := procPair.1, proc_prev_time := procPair.2 }
  let annotated := env.overlay result.plotted st2.sub_fps st2.proc_fps
  publishSteps st2 msg result.obb (env.encode annotated)

/-- `YoloOBBNode.image_callback` (lines 65-140): arrival-rate EMA update
(lines 67-72), decode with early return on exception (lines 75-80), then
`afterDecode` for the rest of the cycle. -/
def image_callback (st : NodeState) (env : CallbackEnv) (msg : CompressedImageMsg) :
    CycleResult :=
  let subPair := fpsUpdate st.sub_prev_time st.sub_fps env.sub_now
  let st1 : NodeState := { st with sub_fps := subPair.1, sub_prev_time := subPair.2 }
  match env.decode with
  | Except.error e =>
    { st := st1, imagePub := none, detPub := none
      log := ["Error decoding compressed image: " ++ e], crashed := false }
  | Except.ok cv_image => afterDecode st1 env msg cv_image

/-! ### Concrete fixtures used by witnesses and counterexamples -/

/-- A small concrete raster. -/
def raster0 : Raster := { pixels := [0] }

/-- A concrete input frame with header `seq = 7`, `stamp = 100.0`. -/
def msg7 : CompressedImageMsg :=
  { header := { seq := 7, stamp := 100 }, format := "jpeg", data := [1, 2, 3] }

/-- A three-entry class-name table. -/
def names3 : List String := ["zero", "one", "two"]

/-- A raw detection: class 2, confidence 0.83, box (50, 60, 20, 10, 0.3). -/
def obb283 : OBBRaw := { cls := 2, conf := 83/100, xywhr := (50, 60, 20, 10, 3/10) }

/-- A fresh node state with the default threshold and table `names3`. -/
def st0 : NodeState := initState none names3

/-- Environment where everything succeeds and the detector reports `obb283`. -/
def envOk : CallbackEnv :=
  { sub_now := 10, proc_start := 10, decode := Except.ok raster0
    detect := fun _ _ => { obb := some [obb283], plotted := raster0 }
    overlay := fun r _ _ => r
    encode := fun _ => EncodeOutcome.ok [9]
    proc_end := 11 }

/-- Like `envOk` but `cv2.imencode` returns a false success flag. -/
def envRetFalse : CallbackEnv :=
  { envOk with encode := fun _ => EncodeOutcome.retFalse }

/-- Decode succeeds, the detector reports zero detections, and `imencode`
returns a false success flag. -/
def envRetFalseEmpty : CallbackEnv :=
  { envRetFalse with detect := fun _ _ => { obb := some [], plotted := raster0 } }

/-- Environment whose decode step raises (malformed payload). -/
def envDecodeFail : CallbackEnv :=
  { envOk with decode := Except.error "bad" }

/-- Like `envOk` but the encode-or-publish try block raises an exception. -/
def envExn : CallbackEnv :=
  { envOk with encode := fun _ => EncodeOutcome.exn "boom" }

/-! ### Helper lemmas -/

/-- Unpacking a successful per-detection build: every field is copied
verbatim from the raw detector row. -/
theorem mkOBBDetection_some_fields (names : List String) (o : OBBRaw) (d : OBBDetection)
    (h : mkOBBDetection names o = some d) :
    d.class_id = pyInt o.cls ∧ d.score = o.conf ∧
    d.x_center = o.xywhr.1 ∧ d.y_center = o.xywhr.2.1 ∧
    d.width = o.xywhr.2.2.1 ∧ d.height = o.xywhr.2.2.2.1 ∧
    d.angle = o.xywhr.2.2.2.2 := by
  unfold mkOBBDetection at h
  split at h
  · cases h
    exact ⟨rfl, rfl, rfl, rfl, rfl, rfl, rfl⟩
  · cases h

/-- A successful per-detection build resolves `class_name` as the table
entry at the int-cast class id. -/
theorem mkOBBDetection_some_name (names : List String) (o : OBBRaw) (d : OBBDetection)
    (h : mkOBBDetection names o = some d)
    (hb : (pyInt o.cls).toNat < names.length) :
    d.class_name = names.get ⟨(pyInt o.cls).toNat, hb⟩ := by
  unfold mkOBBDetection at h
  split at h
  · cases h
    rfl
  · cases h

/-- On an in-range class id the per-detection build succeeds. -/
theorem mkOBBDetection_isSome (names : List String) (o : OBBRaw)
    (h : 0 ≤ pyInt o.cls ∧ (pyInt o.cls).toNat < names.length) :
    ∃ d, mkOBBDetection names o = some d := by
  unfold mkOBBDetection
  rw [dif_pos h]
  exact ⟨_, rfl⟩

/-- On an out-of-range class id the lookup fails: no fallback is
substituted. -/
theorem mkOBBDetection_none (names : List String) (o : OBBRaw)
    (h : ¬(0 ≤ pyInt o.cls ∧ (pyInt o.cls).toNat < names.length)) :
    mkOBBDetection names o = none := by
  unfold mkOBBDetection
  rw [dif_neg h]

/-- If every raw class id indexes the table, the batch construction
succeeds. -/
theorem buildDetections_isSome (names : List String) (obbs : List OBBRaw)
    (h : ∀ o ∈ obbs, 0 ≤ pyInt o.cls ∧ (pyInt o.cls).toNat < names.length) :
    ∃ dets, buildDetections names obbs = some dets := by
  induction obbs with
  | nil => exact ⟨[], rfl⟩
  | cons o rest ih =>
    obtain ⟨ds, hds⟩ := ih fun x hx => h x (List.mem_cons_of_mem _ hx)
    obtain ⟨d, hd⟩ := mkOBBDetection_isSome names o (h o (List.mem_cons_self _ _))
    refine ⟨d :: ds, ?_⟩
    unfold buildDetections
    rw [hd, hds]

/-- A successful batch construction relates input rows and output entries
pointwise, in order. -/
theorem buildDetections_forall2 (names : List String) (obbs : List OBBRaw)
    (dets : List OBBDetection) (h : buildDetections names obbs = some dets) :
    List.Forall₂ (fun o d => mkOBBDetection names o = some d) obbs dets := by
  induction obbs generalizing dets with
  | nil =>
    cases h
    exact List.Forall₂.nil
  | cons o rest ih =>
    unfold buildDetections at h
    cases hm : mkOBBDetection names o with
    | none => rw [hm] at h; cases h
    | some d =>
      rw [hm] at h
      cases hr : buildDetections names rest with
      | none => rw [hr] at h; cases h
      | some ds =>
        rw [hr] at h
        cases h
        exact List.Forall₂.cons hm (ih ds hr)

/-- The previous-timestamp slot is always overwritten with the current
time, whether or not the rate changed. -/
theorem fpsUpdate_snd (prev fps now : ℚ) : (fpsUpdate prev fps now).2 = now := by
  unfold fpsUpdate
  split
  · split <;> rfl
  · rfl

/-- The EMA update when a previous timestamp exists and time advanced. -/
theorem fpsUpdate_pos (prev fps now : ℚ) (hp : 0 < prev) (hd : 0 < now - prev) :
    fpsUpdate prev fps now = (fps * (9/10) + 1 / (now - prev) * (1/10), now) := by
  unfold fpsUpdate
  rw [if_pos hp, if_pos hd]

/-- The EMA update when a previous timestamp exists but time did not
advance: the rate is left alone. -/
theorem fpsUpdate_nonpos (prev fps now : ℚ) (hp : 0 < prev) (hd : now - prev ≤ 0) :
    fpsUpdate prev fps now = (fps, now) := by
  unfold fpsUpdate
  rw [if_pos hp, if_neg (not_lt.mpr hd)]

/-- No previous timestamp (the zero sentinel): the rate is left alone. -/
theorem fpsUpdate_sentinel (prev fps now : ℚ) (hp : ¬ prev > 0) :
    fpsUpdate prev fps now = (fps, now) := by
  unfold fpsUpdate
  rw [if_neg hp]

/-- `finishDetections` never changes the node state. -/
theorem finishDetections_st (st : NodeState) (msg : CompressedImageMsg)
    (ip : Option CompressedImageMsg) (lg : List String) (obb : Option (List OBBRaw)) :
    (finishDetections st msg ip lg obb).st = st := by
  cases obb with
  | none => rfl
  | some obbs =>
    simp only [finishDetections]
    cases buildDetections st.names obbs <;> rfl

/-- `finishDetections` passes the image-publication slot through. -/
theorem finishDetections_imagePub (st : NodeState) (msg : CompressedImageMsg)
    (ip : Option CompressedImageMsg) (lg : List String) (obb : Option (List OBBRaw)) :
    (finishDetections st msg ip lg obb).imagePub = ip := by
  cases obb with
  | none => rfl
  | some obbs =>
    simp only [finishDetections]
    cases buildDetections st.names obbs <;> rfl

/-- `finishDetections` passes the log through. -/
theorem finishDetections_log (st : NodeState) (msg : CompressedImageMsg)
    (ip : Option CompressedImageMsg) (lg : List String) (obb : Option (List OBBRaw)) :
    (finishDetections st msg ip lg obb).log = lg := by
  cases obb with
  | none => rfl
  | some obbs =>
    simp only [finishDetections]
    cases buildDetections st.names obbs <;> rfl

/-- Whenever `finishDetections` publishes a batch, its header is the input
message's header. -/
theorem finishDetections_detPub_header (st : NodeState) (msg : CompressedImageMsg)
    (ip : Option CompressedImageMsg) (lg : List String) (obb : Option (List OBBRaw))
    (b : OBBDetectionArray) (h : (finishDetections st msg ip lg obb).detPub = some b) :
    b.header = msg.header := by
  cases obb with
  | none =>
    simp only [finishDetections] at h
    cases h
    rfl
  | some obbs =>
    simp only [finishDetections] at h
    cases hb : buildDetections st.names obbs with
    | none => rw [hb] at h; cases h
    | some ds => rw [hb] at h; cases h; rfl

/-- Under in-range class ids, `finishDetections` always publishes a batch
carrying the input header. -/
theorem finishDetections_detPub_some (st : NodeState) (msg : CompressedImageMsg)
    (ip : Option CompressedImageMsg) (lg : List String) (obb : Option (List OBBRaw))
    (h : ∀ obbs, obb = some obbs →
      ∀ o ∈ obbs, 0 ≤ pyInt o.cls ∧ (pyInt o.cls).toNat < st.names.length) :
    ∃ b, (finishDetections st msg ip lg obb).detPub = some b ∧ b.header = msg.header := by
  cases obb with
  | none => exact ⟨_, rfl, rfl⟩
  | some obbs =>
    obtain ⟨dets, hdets⟩ := buildDetections_isSome st.names obbs (h obbs rfl)
    simp only [finishDetections]
    rw [hdets]
    exact ⟨_, rfl, rfl⟩

/-- Under in-range class ids, `finishDetections` never crashes. -/
theorem finishDetections_not_crashed (st : NodeState) (msg : CompressedImageMsg)
    (ip : Option CompressedImageMsg) (lg : List String) (obb : Option (List OBBRaw))
    (h : ∀ obbs, obb = some obbs →
      ∀ o ∈ obbs, 0 ≤ pyInt o.cls ∧ (pyInt o.cls).toNat < st.names.length) :
    (finishDetections st msg ip lg obb).crashed = false := by
  cases obb with
  | none => rfl
  | some obbs =>
    obtain ⟨dets, hdets⟩ := buildDetections_isSome st.names obbs (h obbs rfl)
    simp only [finishDetections]
    rw [hdets]

/-- Whatever the encode outcome, the publication steps do not change the
node state. -/
theorem publishSteps_st (st2 : NodeState) (msg : CompressedImageMsg)
    (obb : Option (List OBBRaw)) (oc : EncodeOutcome) :
    (publishSteps st2 msg obb oc).st = st2 := by
  cases oc with
  | retFalse => rfl
  | exn e => exact finishDetections_st _ _ _ _ _
  | ok buffer => exact finishDetections_st _ _ _ _ _

/-- After a successful decode, the rest of the cycle only touches the
processing-rate tracker slots of the node state. -/
theorem afterDecode_st (st1 : NodeState) (env : CallbackEnv) (msg : CompressedImageMsg)
    (img : Raster) :
    (afterDecode st1 env msg img).st =
      { st1 with
        proc_fps := (fpsUpdate st1.proc_prev_time st1.proc_fps env.proc_end).1
        proc_prev_time := (fpsUpdate st1.proc_prev_time st1.proc_fps env.proc_end).2 } := by
  simp only [afterDecode]
  rw [publishSteps_st]

/-- A decode exception takes the early-return branch of lines 78-80:
nothing is published, the error is logged, the callback returns normally,
and only the arrival-rate tracker advanced. -/
theorem image_callback_decode_error (st : NodeState) (env : CallbackEnv)
    (msg : CompressedImageMsg) (e : String) (h : env.decode = Except.error e) :
    image_callback st env msg =
      { st := { st with
                sub_fps := (fpsUpdate st.sub_prev_time st.sub_fps env.sub_now).1
                sub_prev_time := (fpsUpdate st.sub_prev_time st.sub_fps env.sub_now).2 }
        imagePub := none, detPub := none
        log := ["Error decoding compressed image: " ++ e], crashed := false } := by
  unfold image_callback
  rw [h]

/-- A successful decode hands over to `afterDecode` with the arrival-rate
tracker advanced. -/
theorem image_callback_decode_ok (st : NodeState) (env : CallbackEnv)
    (msg : CompressedImageMsg) (img : Raster) (h : env.decode = Except.ok img) :
    image_callback st env msg =
      afterDecode
        { st with
          sub_fps := (fpsUpdate st.sub_prev_time st.sub_fps env.sub_now).1
          sub_prev_time := (fpsUpdate st.sub_prev_time st.sub_fps env.sub_now).2 }
        env msg img := by
  unfold image_callback
  rw [h]

/-- If the encode step reports a false success flag the whole remainder of
the callback is abandoned (the `return` of line 110). -/
theorem afterDecode_encode_retFalse (st1 : NodeState) (env : CallbackEnv)
    (msg : CompressedImageMsg) (img : Raster)
    (h : ∀ r, env.encode r = EncodeOutcome.retFalse) :
    afterDecode st1 env msg img =
      { st := { st1 with
                proc_fps := (fpsUpdate st1.proc_prev_time st1.proc_fps env.proc_end).1
                proc_prev_time := (fpsUpdate st1.proc_prev_time st1.proc_fps env.proc_end).2 }
        imagePub := none, detPub := none
        log := ["Failed to encode annotated image."], crashed := false } := by
  simp only [afterDecode, h, publishSteps]

/-- If the encode-or-publish try block raises, the exception is caught and
logged and the cycle continues into the detection-batch step with no image
published. -/
theorem afterDecode_encode_exn (st1 : NodeState) (env : CallbackEnv)
    (msg : CompressedImageMsg) (img : Raster) (e : String)
    (h : ∀ r, env.encode r = EncodeOutcome.exn e) :
    afterDecode st1 env msg img =
      finishDetections
        { st1 with
          proc_fps := (fpsUpdate st1.proc_prev_time st1.proc_fps env.proc_end).1
          proc_prev_time := (fpsUpdate st1.proc_prev_time st1.proc_fps env.proc_end).2 }
        msg none ["Error publishing annotated image: " ++ e]
        (env.detect img st1.confidence_threshold).obb := by
  simp only [afterDecode, h, publishSteps]

/-- If the encode step succeeds, the annotated image goes out with the
input header and the cycle continues into the detection-batch step. -/
theorem afterDecode_encode_ok (st1 : NodeState) (env : CallbackEnv)
    (msg : CompressedImageMsg) (img : Raster) (buffer : List Nat)
    (h : ∀ r, env.encode r = EncodeOutcome.ok buffer) :
    afterDecode st1 env msg img =
      finishDetections
        { st1 with
          proc_fps := (fpsUpdate st1.proc_prev_time st1.proc_fps env.proc_end).1
          proc_prev_time := (fpsUpdate st1.proc_prev_time st1.proc_fps env.proc_end).2 }
        msg (some { header := msg.header, format := "jpeg", data := buffer }) []
        (env.detect img st1.confidence_threshold).obb := by
  simp only [afterDecode, h, publishSteps]

/-- Every entry of a successfully built batch comes from some input row. -/
theorem buildDetections_mem (names : List String) (obbs : List OBBRaw)
    (dets : List OBBDetection) (h : buildDetections names obbs = some dets)
    (d : OBBDetection) (hd : d ∈ dets) :
    ∃ o ∈ obbs, mkOBBDetection names o = some d := by
  induction obbs generalizing dets with
  | nil =>
    cases h
    cases hd
  | cons o rest ih =>
    unfold buildDetections at h
    cases hm : mkOBBDetection names o with
    | none => rw [hm] at h; cases h
    | some d0 =>
      rw [hm] at h
      cases hr : buildDetections names rest with
      | none => rw [hr] at h; cases h
      | some ds =>
        rw [hr] at h
        cases h
        rcases List.mem_cons.mp hd with h1 | h2
        · exact ⟨o, List.mem_cons_self _ _, h1 ▸ hm⟩
        · obtain ⟨o', ho', hmk⟩ := ih ds hr h2
          exact ⟨o', List.mem_cons_of_mem _ ho', hmk⟩

/-- With zero raw detections, any encode outcome other than the false
success flag still publishes a batch with an empty detection sequence. -/
theorem publishSteps_detPub_empty (st2 : NodeState) (msg : CompressedImageMsg)
    (obb : Option (List OBBRaw)) (oc : EncodeOutcome)
    (hobb : obb = some []) (hoc : oc ≠ EncodeOutcome.retFalse) :
    (publishSteps st2 msg obb oc).detPub =
      some { header := msg.header, detections := [] } := by
  subst hobb
  cases oc with
  | retFalse => exact absurd rfl hoc
  | exn e => rfl
  | ok buffer => rfl

/-- Whatever the encode outcome, a published annotated image carries the
input message's header. -/
theorem publishSteps_imagePub_header (st2 : NodeState) (msg : CompressedImageMsg)
    (obb : Option (List OBBRaw)) (oc : EncodeOutcome) (i : CompressedImageMsg)
    (h : (publishSteps st2 msg obb oc).imagePub = some i) : i.header = msg.header := by
  cases oc with
  | retFalse => simp only [publishSteps] at h; cases h
  | exn e =>
    simp only [publishSteps] at h
    rw [finishDetections_imagePub] at h
    cases h
  | ok buffer =>
    simp only [publishSteps] at h
    rw [finishDetections_imagePub] at h
    cases h
    rfl

/-- Whatever the encode outcome, a published detection batch carries the
input message's header. -/
theorem publishSteps_detPub_header (st2 : NodeState) (msg : CompressedImageMsg)
    (obb : Option (List OBBRaw)) (oc : EncodeOutcome) (b : OBBDetectionArray)
    (h : (publishSteps st2 msg obb oc).detPub = some b) : b.header = msg.header := by
  cases oc with
  | retFalse => simp only [publishSteps] at h; cases h
  | exn e => exact finishDetections_detPub_header _ _ _ _ _ _ h
  | ok buffer => exact finishDetections_detPub_header _ _ _ _ _ _ h

/-- Under in-range class ids, an annotated-image publication is always
accompanied by a detection-batch publication in the same cycle. -/
theorem publishSteps_pair (st2 : NodeState) (msg : CompressedImageMsg)
    (obb : Option (List OBBRaw)) (oc : EncodeOutcome)
    (hvalid : ∀ obbs, obb = some obbs →
      ∀ o ∈ obbs, 0 ≤ pyInt o.cls ∧ (pyInt o.cls).toNat < st2.names.length)
    (h : (publishSteps st2 msg obb oc).imagePub.isSome) :
    (publishSteps st2 msg obb oc).detPub.isSome := by
  cases oc with
  | retFalse =>
    simp only [publishSteps] at h
    exact Bool.noConfusion h
  | exn e =>
    simp only [publishSteps] at h
    rw [finishDetections_imagePub] at h
    exact Bool.noConfusion h
  | ok buffer =>
    simp only [publishSteps]
    obtain ⟨b, hb, _⟩ := finishDetections_detPub_some st2 msg
      (some { header := msg.header, format := "jpeg", data := buffer }) [] obb hvalid
    rw [hb]
    rfl

/-- If every raw detector row clears confidence `c`, so does every entry of
a batch that `finishDetections` publishes. -/
theorem finishDetections_scores (st : NodeState) (msg : CompressedImageMsg)
    (ip : Option CompressedImageMsg) (lg : List String) (obb : Option (List OBBRaw))
    (c : ℚ) (hconf : ∀ obbs, obb = some obbs → ∀ o ∈ obbs, c ≤ o.conf)
    (b : OBBDetectionArray) (hb : (finishDetections st msg ip lg obb).detPub = some b) :
    ∀ d ∈ b.detections, c ≤ d.score := by
  cases obb with
  | none =>
    simp only [finishDetections] at hb
    cases hb
    intro d hd
    cases hd
  | some obbs =>
    simp only [finishDetections] at hb
    cases hds : buildDetections st.names obbs with
    | none => rw [hds] at hb; cases hb
    | some ds =>
      rw [hds] at hb
      cases hb
      intro d hd
      obtain ⟨o, ho, hmk⟩ := buildDetections_mem st.names obbs ds hds d hd
      rw [(mkOBBDetection_some_fields st.names o d hmk).2.1]
      exact hconf obbs rfl o ho

/-! ### Claim theorems -/

/-- Claim C1, counterexample: a successfully decoded frame on which
`cv2.imencode` returns a false success flag.  The claim says the detection
batch is still published; in fact the `return` of line 110 aborts the whole
callback and neither message is published. -/
theorem C1_counterexample :
    envRetFalse.decode = Except.ok raster0 ∧
    (∀ r, envRetFalse.encode r = EncodeOutcome.retFalse) ∧
    (image_callback st0 envRetFalse msg7).imagePub = none ∧
    (image_callback st0 envRetFalse msg7).detPub = none :=
  ⟨rfl, fun _ => rfl, rfl, rfl⟩

/-- Claim C1 (amended): on a successfully decoded frame, if re-encoding the
annotated raster fails by returning a false success flag, the failure is
logged and the whole remainder of the cycle is abandoned: neither the
annotated image nor the detection batch is published.  (Only an exception
inside the encode-or-publish block leaves the batch publication intact.) -/
theorem C1_encode_flag_aborts_cycle (st : NodeState) (env : CallbackEnv)
    (msg : CompressedImageMsg) (img : Raster)
    (hdec : env.decode = Except.ok img)
    (henc : ∀ r, env.encode r = EncodeOutcome.retFalse) :
    (image_callback st env msg).imagePub = none ∧
    (image_callback st env msg).detPub = none ∧
    (image_callback st env msg).log = ["Failed to encode annotated image."] := by
  rw [image_callback_decode_ok st env msg img hdec,
    afterDecode_encode_retFalse _ env msg img henc]
  exact ⟨rfl, rfl, rfl⟩

/-- Witness for the amended C1 at a concrete frame. -/
theorem C1_witness :
    (image_callback st0 envRetFalse msg7).imagePub = none ∧
    (image_callback st0 envRetFalse msg7).detPub = none ∧
    (image_callback st0 envRetFalse msg7).log = ["Failed to encode annotated image."] :=
  C1_encode_flag_aborts_cycle st0 envRetFalse msg7 raster0 rfl fun _ => rfl

/-- Claim C3, counterexample: a successfully decoded frame with zero
detections on which `cv2.imencode` returns a false success flag.  The claim
says a detection batch is still published for every successfully decoded
zero-detection frame; in fact the early return of line 110 omits it. -/
theorem C3_counterexample :
    envRetFalseEmpty.decode = Except.ok raster0 ∧
    (envRetFalseEmpty.detect raster0 st0.confidence_threshold).obb = some [] ∧
    (image_callback st0 envRetFalseEmpty msg7).detPub = none :=
  ⟨rfl, rfl, rfl⟩

/-- Claim C3 (amended): for every successfully decoded frame with zero
detections that is not cut short by a false `imencode` success flag, a
detection batch is published and its detection sequence is empty (never
omitted, never null). -/
theorem C3_empty_batch_published (st : NodeState) (env : CallbackEnv)
    (msg : CompressedImageMsg) (img : Raster)
    (hdec : env.decode = Except.ok img)
    (hdet : (env.detect img st.confidence_threshold).obb = some [])
    (henc : ∀ r, env.encode r ≠ EncodeOutcome.retFalse) :
    (image_callback st env msg).detPub =
      some { header := msg.header, detections := [] } := by
  rw [image_callback_decode_ok st env msg img hdec]
  simp only [afterDecode]
  exact publishSteps_detPub_empty _ _ _ _ hdet (henc _)

/-- Witness for the amended C3 at a concrete zero-detection frame. -/
theorem C3_witness :
    (image_callback st0
        { envOk with detect := fun _ _ => { obb := some [], plotted := raster0 } }
        msg7).detPub =
      some { header := msg7.header, detections := [] } :=
  C3_empty_batch_published st0
    { envOk with detect := fun _ _ => { obb := some [], plotted := raster0 } }
    msg7 raster0 rfl rfl fun _ h => by cases h

/-- Claim C10: an exception raised inside the annotated-image
encode-or-publish try block is caught and logged (line 114); the detection
batch for that frame is still built and published, and the callback returns
normally. -/
theorem C10_encode_exception_recovered (st : NodeState) (env : CallbackEnv)
    (msg : CompressedImageMsg) (img : Raster) (e : String)
    (hdec : env.decode = Except.ok img)
    (henc : ∀ r, env.encode r = EncodeOutcome.exn e)
    (hvalid : ∀ obbs, (env.detect img st.confidence_threshold).obb = some obbs →
      ∀ o ∈ obbs, 0 ≤ pyInt o.cls ∧ (pyInt o.cls).toNat < st.names.length) :
    (image_callback st env msg).imagePub = none ∧
    (∃ b, (image_callback st env msg).detPub = some b ∧ b.header = msg.header) ∧
    (image_callback st env msg).crashed = false ∧
    ("Error publishing annotated image: " ++ e) ∈ (image_callback st env msg).log := by
  rw [image_callback_decode_ok st env msg img hdec,
    afterDecode_encode_exn _ env msg img e henc]
  refine ⟨finishDetections_imagePub _ _ _ _ _,
    finishDetections_detPub_some _ _ _ _ _ hvalid,
    finishDetections_not_crashed _ _ _ _ _ hvalid, ?_⟩
  rw [finishDetections_log]
  exact List.mem_singleton.mpr rfl

/-- Witness for C10 at a concrete frame. -/
theorem C10_witness :
    (image_callback st0 envExn msg7).imagePub = none ∧
    (∃ b, (image_callback st0 envExn msg7).detPub = some b ∧ b.header = msg7.header) ∧
    (image_callback st0 envExn msg7).crashed = false ∧
    ("Error publishing annotated image: " ++ "boom") ∈ (image_callback st0 envExn msg7).log :=
  C10_encode_exception_recovered st0 envExn msg7 raster0 "boom" rfl (fun _ => rfl)
    (by intro obbs h; cases h; decide)

/-- Claim C2: for every rate-tracker update with previous rate `r`,
previous timestamp `tPrev > 0` and current timestamp `t`: if the elapsed
time is strictly positive the new rate is `0.9*r + 0.1*(1/d)`; if it is not,
the rate is unchanged; in all cases the stored previous timestamp becomes
`t`.  The last two conjuncts tie the formula to both trackers inside the
callback: the arrival tracker updates on every notification, the processing
tracker on every successfully decoded frame. -/
theorem C2_ema_update_law (r tPrev t : ℚ) (hp : 0 < tPrev) :
    (0 < t - tPrev →
      fpsUpdate tPrev r t = (r * (9/10) + 1 / (t - tPrev) * (1/10), t)) ∧
    (t - tPrev ≤ 0 → fpsUpdate tPrev r t = (r, t)) ∧
    (fpsUpdate tPrev r t).2 = t ∧
    (∀ st env msg, st.sub_prev_time = tPrev → st.sub_fps = r → env.sub_now = t →
      (image_callback st env msg).st.sub_fps = (fpsUpdate tPrev r t).1 ∧
      (image_callback st env msg).st.sub_prev_time = t) ∧
    (∀ st env msg img, env.decode = Except.ok img →
      st.proc_prev_time = tPrev → st.proc_fps = r → env.proc_end = t →
      (image_callback st env msg).st.proc_fps = (fpsUpdate tPrev r t).1 ∧
      (image_callback st env msg).st.proc_prev_time = t) := by
  refine ⟨fun hd => fpsUpdate_pos tPrev r t hp hd,
    fun hd => fpsUpdate_nonpos tPrev r t hp hd,
    fpsUpdate_snd tPrev r t, ?_, ?_⟩
  · intro st env msg h1 h2 h3
    subst h1; subst h2; subst h3
    cases hd : env.decode with
    | error e =>
      rw [image_callback_decode_error st env msg e hd]
      exact ⟨rfl, fpsUpdate_snd _ _ _⟩
    | ok img =>
      rw [image_callback_decode_ok st env msg img hd, afterDecode_st]
      exact ⟨rfl, fpsUpdate_snd _ _ _⟩
  · intro st env msg img hd h1 h2 h3
    subst h1; subst h2; subst h3
    rw [image_callback_decode_ok st env msg img hd, afterDecode_st]
    exact ⟨rfl, fpsUpdate_snd _ _ _⟩

/-- Witness for C2: previous rate 2, previous timestamp 5, current time 7. -/
theorem C2_witness :
    fpsUpdate 5 2 7 = (2 * (9/10) + 1 / ((7:ℚ) - 5) * (1/10), 7) :=
  (C2_ema_update_law 2 5 7 (by norm_num)).1 (by norm_num)

/-- Claim C5: on the first frame after startup both rate estimates stay at
their initial zero value, in every branch of the callback, because the zero
previous-timestamp sentinel gates both EMA updates. -/
theorem C5_first_frame_rates_zero (confidenceParam : Option ℚ) (names : List String)
    (env : CallbackEnv) (msg : CompressedImageMsg) :
    (image_callback (initState confidenceParam names) env msg).st.sub_fps = 0 ∧
    (image_callback (initState confidenceParam names) env msg).st.proc_fps = 0 := by
  have hsub : fpsUpdate (initState confidenceParam names).sub_prev_time
      (initState confidenceParam names).sub_fps env.sub_now = (0, env.sub_now) :=
    fpsUpdate_sentinel _ _ _ (lt_irrefl 0)
  cases hd : env.decode with
  | error e =>
    rw [image_callback_decode_error _ env msg e hd, hsub]
    exact ⟨rfl, rfl⟩
  | ok img =>
    rw [image_callback_decode_ok _ env msg img hd, afterDecode_st, hsub]
    refine ⟨rfl, ?_⟩
    show (fpsUpdate 0 0 env.proc_end).1 = 0
    rw [fpsUpdate_sentinel 0 0 env.proc_end (lt_irrefl 0)]

/-- Claim C4: both outgoing messages of a cycle carry a header copied
verbatim from the triggering input frame (lines 105 and 119), so the two
headers of any published pair are identical, and a published annotated
image is always accompanied by a detection batch in the same cycle
(assuming the detector honours its contract of returning class ids that
index the class-name table). -/
theorem C4_header_correlation (st : NodeState) (env : CallbackEnv)
    (msg : CompressedImageMsg)
    (hvalid : ∀ img c obbs, (env.detect img c).obb = some obbs →
      ∀ o ∈ obbs, 0 ≤ pyInt o.cls ∧ (pyInt o.cls).toNat < st.names.length) :
    (∀ i, (image_callback st env msg).imagePub = some i → i.header = msg.header) ∧
    (∀ b, (image_callback st env msg).detPub = some b → b.header = msg.header) ∧
    ((image_callback st env msg).imagePub.isSome →
      (image_callback st env msg).detPub.isSome) := by
  cases hd : env.decode with
  | error e =>
    rw [image_callback_decode_error st env msg e hd]
    exact ⟨fun i h => Option.noConfusion h, fun b h => Option.noConfusion h,
      fun h => Bool.noConfusion h⟩
  | ok img =>
    rw [image_callback_decode_ok st env msg img hd]
    simp only [afterDecode]
    exact ⟨fun i h => publishSteps_imagePub_header _ _ _ _ _ h,
      fun b h => publishSteps_detPub_header _ _ _ _ _ h,
      fun h => publishSteps_pair _ _ _ _ (fun obbs hh => hvalid img _ obbs hh) h⟩

/-- Witness for C4 at a concrete frame where both messages go out. -/
theorem C4_witness :
    (∀ i, (image_callback st0 envOk msg7).imagePub = some i → i.header = msg7.header) ∧
    (∀ b, (image_callback st0 envOk msg7).detPub = some b → b.header = msg7.header) ∧
    ((image_callback st0 envOk msg7).imagePub.isSome →
      (image_callback st0 envOk msg7).detPub.isSome) :=
  C4_header_correlation st0 envOk msg7
    (by intro img c obbs h; cases h; decide)

/-- Claim C6: a notification whose payload fails to decode is logged and
aborts the cycle with no publication on either channel and no crash, and a
subsequent valid frame on the resulting state still publishes on both
channels. -/
theorem C6_decode_failure_isolated (st : NodeState) (env env2 : CallbackEnv)
    (msg msg2 : CompressedImageMsg) (e : String) (img2 : Raster) (buf : List Nat)
    (hdec : env.decode = Except.error e)
    (h2dec : env2.decode = Except.ok img2)
    (h2enc : ∀ r, env2.encode r = EncodeOutcome.ok buf)
    (h2valid : ∀ obbs, (env2.detect img2 st.confidence_threshold).obb = some obbs →
      ∀ o ∈ obbs, 0 ≤ pyInt o.cls ∧ (pyInt o.cls).toNat < st.names.length) :
    (image_callback st env msg).imagePub = none ∧
    (image_callback st env msg).detPub = none ∧
    (image_callback st env msg).crashed = false ∧
    ("Error decoding compressed image: " ++ e) ∈ (image_callback st env msg).log ∧
    (image_callback (image_callback st env msg).st env2 msg2).imagePub =
      some { header := msg2.header, format := "jpeg", data := buf } ∧
    (∃ b, (image_callback (image_callback st env msg).st env2 msg2).detPub = some b ∧
      b.header = msg2.header) := by
  rw [image_callback_decode_error st env msg e hdec]
  refine ⟨rfl, rfl, rfl, List.mem_singleton.mpr rfl, ?_, ?_⟩
  · rw [image_callback_decode_ok _ env2 msg2 img2 h2dec,
      afterDecode_encode_ok _ env2 msg2 img2 buf h2enc]
    exact finishDetections_imagePub _ _ _ _ _
  · rw [image_callback_decode_ok _ env2 msg2 img2 h2dec,
      afterDecode_encode_ok _ env2 msg2 img2 buf h2enc]
    exact finishDetections_detPub_some _ _ _ _ _ h2valid

/-- Witness for C6: a malformed frame followed by a valid one. -/
theorem C6_witness :
    (image_callback st0 envDecodeFail msg7).imagePub = none ∧
    (image_callback st0 envDecodeFail msg7).detPub = none ∧
    (image_callback st0 envDecodeFail msg7).crashed = false ∧
    ("Error decoding compressed image: " ++ "bad") ∈
      (image_callback st0 envDecodeFail msg7).log ∧
    (image_callback (image_callback st0 envDecodeFail msg7).st envOk msg7).imagePub =
      some { header := msg7.header, format := "jpeg", data := [9] } ∧
    (∃ b, (image_callback (image_callback st0 envDecodeFail msg7).st envOk msg7).detPub =
      some b ∧ b.header = msg7.header) :=
  C6_decode_failure_isolated st0 envDecodeFail envOk msg7 msg7 "bad" raster0 [9]
    rfl rfl (fun _ => rfl) (by intro obbs h; cases h; decide)

/-- Claim C7: the concrete end-to-end scenario — input header `(7, 100.0)`,
one detector row `(cls 2, conf 0.83, xywhr (50, 60, 20, 10, 0.3))`,
threshold 0.5 — publishes one batch with that header and the expected
single detection; and in general every successfully built batch copies the
rotated-box quintuple verbatim, entry by entry, in the detector's native
order with no unit conversion. -/
theorem C7_end_to_end_verbatim :
    (image_callback st0 envOk msg7).detPub =
      some { header := { seq := 7, stamp := 100 }
             detections := [{ class_id := 2, class_name := "two", score := 83/100
                              x_center := 50, y_center := 60, width := 20
                              height := 10, angle := 3/10 }] } ∧
    ∀ names obbs dets, buildDetections names obbs = some dets →
      List.Forall₂ (fun (o : OBBRaw) (d : OBBDetection) =>
        d.class_id = pyInt o.cls ∧ d.score = o.conf ∧
        d.x_center = o.xywhr.1 ∧ d.y_center = o.xywhr.2.1 ∧
        d.width = o.xywhr.2.2.1 ∧ d.height = o.xywhr.2.2.2.1 ∧
        d.angle = o.xywhr.2.2.2.2) obbs dets := by
  constructor
  · rfl
  · intro names obbs dets h
    exact (buildDetections_forall2 names obbs dets h).imp
      fun o d hm => mkOBBDetection_some_fields names o d hm

/-- Witness for C7's general part at a concrete one-row batch. -/
theorem C7_witness :
    List.Forall₂ (fun (o : OBBRaw) (d : OBBDetection) =>
      d.class_id = pyInt o.cls ∧ d.score = o.conf ∧
      d.x_center = o.xywhr.1 ∧ d.y_center = o.xywhr.2.1 ∧
      d.width = o.xywhr.2.2.1 ∧ d.height = o.xywhr.2.2.2.1 ∧
      d.angle = o.xywhr.2.2.2.2)
      [obb283]
      [{ class_id := 2, class_name := "two", score := 83/100, x_center := 50
         y_center := 60, width := 20, height := 10, angle := 3/10 }] :=
  C7_end_to_end_verbatim.2 names3 [obb283]
    [{ class_id := 2, class_name := "two", score := 83/100, x_center := 50
       y_center := 60, width := 20, height := 10, angle := 3/10 }] rfl

/-- Claim C8: class-name resolution indexes the model's table directly with
the int-cast class id and has no fallback: an in-range id resolves to the
table entry, an out-of-range id makes the lookup fail (the error branch is
reachable) instead of substituting an "unknown class" name. -/
theorem C8_class_name_lookup :
    (∀ (names : List String) (o : OBBRaw)
      (h : 0 ≤ pyInt o.cls ∧ (pyInt o.cls).toNat < names.length),
      ∃ d, mkOBBDetection names o = some d ∧
        d.class_name = names.get ⟨(pyInt o.cls).toNat, h.2⟩) ∧
    (∀ (names : List String) (o : OBBRaw),
      ¬(0 ≤ pyInt o.cls ∧ (pyInt o.cls).toNat < names.length) →
      mkOBBDetection names o = none) := by
  constructor
  · intro names o h
    obtain ⟨d, hd⟩ := mkOBBDetection_isSome names o h
    exact ⟨d, hd, mkOBBDetection_some_name names o d hd h.2⟩
  · intro names o h
    exact mkOBBDetection_none names o h

/-- Witness for C8: class id 2 resolves against a three-entry table, class
id 5 makes the lookup fail. -/
theorem C8_witness :
    (∃ d, mkOBBDetection names3 obb283 = some d) ∧
    mkOBBDetection names3 { cls := 5, conf := 1, xywhr := (0, 0, 0, 0, 0) } = none :=
  ⟨(C8_class_name_lookup.1 names3 obb283 (by decide)).imp fun _ hd => hd.1,
   C8_class_name_lookup.2 names3 _ (by decide)⟩

/-- Claim C9: the confidence threshold defaults to 0.5 when unconfigured
(line 29), and the callback hands exactly the stored threshold to the
detector (line 84); hence, whenever the detector honours its contract of
returning only rows at or above the threshold it was given, every published
detection's score is at or above the node's configured threshold. -/
theorem C9_threshold_passthrough (names : List String) (st : NodeState)
    (env : CallbackEnv) (msg : CompressedImageMsg)
    (hconf : ∀ img obbs, (env.detect img st.confidence_threshold).obb = some obbs →
      ∀ o ∈ obbs, st.confidence_threshold ≤ o.conf) :
    (initState none names).confidence_threshold = 1/2 ∧
    ∀ b, (image_callback st env msg).detPub = some b →
      ∀ d ∈ b.detections, st.confidence_threshold ≤ d.score := by
  refine ⟨rfl, ?_⟩
  cases hd : env.decode with
  | error e =>
    rw [image_callback_decode_error st env msg e hd]
    intro b hb
    cases hb
  | ok img =>
    rw [image_callback_decode_ok st env msg img hd]
    simp only [afterDecode]
    intro b hb
    cases hoc : env.encode (env.overlay
        (env.detect img st.confidence_threshold).plotted
        (fpsUpdate st.sub_prev_time st.sub_fps env.sub_now).1
        (fpsUpdate st.proc_prev_time st.proc_fps env.proc_end).1) with
    | retFalse =>
      rw [hoc] at hb
      simp only [publishSteps] at hb
      cases hb
    | exn e =>
      rw [hoc] at hb
      simp only [publishSteps] at hb
      exact finishDetections_scores _ _ _ _ _ _ (fun obbs hh => hconf img obbs hh) b hb
    | ok buffer =>
      rw [hoc] at hb
      simp only [publishSteps] at hb
      exact finishDetections_scores _ _ _ _ _ _ (fun obbs hh => hconf img obbs hh) b hb

/-- Witness for C9: against the concrete detector returning confidence 0.83
at threshold 0.5, the published detection clears the threshold. -/
theorem C9_witness :
    (initState none names3).confidence_threshold = 1/2 ∧
    st0.confidence_threshold ≤ (83:ℚ)/100 := by
  have h := C9_threshold_passthrough names3 st0 envOk msg7 (by
    intro img obbs hh o ho
    cases hh
    have ho' : o = obb283 := List.mem_singleton.mp ho
    subst ho'
    show st0.confidence_threshold ≤ (83:ℚ)/100
    norm_num [st0, initState])
  exact ⟨h.1, h.2 _ rfl _ (List.mem_cons_self _ _)⟩
